import Mathlib

/-!
Verification of the DOM tree builder, enrichment engine, classifiers and
serialization API of `browser_use/dom/dom_optimized`
(`service.py`, `views.py`, `utils/visible.py`, `utils/interactive.py`,
`utils/enrichment.py`), shallowly embedded in Lean.

Conventions of the embedding:
* Python `dict[str, str]` values are insertion-ordered association lists
  (`PyDict` below) with Python dict semantics for get / insert / update.
* CDP integer identifiers are `Nat`; geometry floats are `Rat` (only their
  comparisons with 0 matter for the verified properties).
* Python `None` is `Option.none`; a function that may receive `None` or a
  non-element argument takes an `Option DOMNode`.
* Exceptions that are raised and caught inside the very function that raises
  them (the blanket `except` handlers of `service.py` and `enrichment.py`)
  are modelled by the value the handler returns.
-/

/-- Insertion-ordered association list standing for a Python `dict[str, str]`. -/
abbrev PyDict := List (String × String)

/-- Python `d.get(k)`: value of the first (unique) binding of `k`, else `None`. -/
def pyDictGet (d : PyDict) (k : String) : Option String :=
  (d.find? (fun p => p.1 == k)).map (fun p => p.2)

/-- Python `d.get(k, dflt)`. -/
def pyDictGetD (d : PyDict) (k dflt : String) : String :=
  (pyDictGet d k).getD dflt

/-- Python `k in d`. -/
def pyDictContains (d : PyDict) (k : String) : Bool :=
  (pyDictGet d k).isSome

/-- Python `d[k] = v`: overwrite in place if `k` is bound, else append. -/
def pyDictInsert (d : PyDict) (k v : String) : PyDict :=
  if pyDictContains d k then d.map (fun p => if p.1 == k then (k, v) else p)
  else d ++ [(k, v)]

/-- Python `d.update(u)`: insert every binding of `u` into `d`, in order. -/
def pyDictUpdate (d u : PyDict) : PyDict :=
  u.foldl (fun acc p => pyDictInsert acc p.1 p.2) d

/-- Truthiness of a Python `Optional[bool]` (`None` and `False` are falsy). -/
def pyTruthy : Option Bool → Bool
  | some true => true
  | _ => false

/-- Bool test that `sub` occurs contiguously within the character list. -/
def charSeqOccurs (sub : List Char) : List Char → Bool
  | [] => sub.isEmpty
  | c :: rest => sub.isPrefixOf (c :: rest) || charSeqOccurs sub rest

/-- Python `sub in s` for strings (substring containment). -/
def strContains (s sub : String) : Bool :=
  charSeqOccurs sub.toList s.toList

/-- Python `str.lower()`, over the character list (kernel-evaluable). -/
def pyLower (s : String) : String := ⟨s.data.map Char.toLower⟩

/-- Python `str.strip()`, over the character list (kernel-evaluable). -/
def pyStrip (s : String) : String :=
  ⟨((s.data.dropWhile Char.isWhitespace).reverse.dropWhile Char.isWhitespace).reverse⟩

/-- One entry of `computed_properties['offsetRects']`
(a dict with `width`/`height` keys, populated by `_extract_layout_data`). -/
structure OffsetRect where
  width : Rat
  height : Rat
deriving DecidableEq

/-- `DOMElementNode.bounding_box`: dict with x/y/width/height keys. -/
structure BoundingBox where
  x : Rat
  y : Rat
  width : Rat
  height : Rat
deriving DecidableEq

/-- `DOMTextNode` of `views.py` (base-class fields plus `text`). -/
structure DOMTextNode where
  node_id : Nat
  backend_node_id : Nat
  frame_url : String
  text : String
deriving DecidableEq

/-- Fields of `DOMElementNode` of `views.py`. The non-owning `parent`
back-pointer is represented by the parent's `node_id` (`parent_id`), which is
the only part of it the verified operations read; `computed_properties` is
represented by its only populated key, `offsetRects`. -/
structure DOMElementNodeData (child : Type) where
  node_id : Nat
  backend_node_id : Nat
  frame_url : String
  tag : String
  attributes : PyDict := []
  text_content : String := ""
  children : List child := []
  computed_styles : PyDict := []
  offsetRects : List OffsetRect := []
  bounding_box : Option BoundingBox := none
  paint_order : Option Int := none
  is_visible : Option Bool := none
  is_interactive : Option Bool := none
  parent_id : Option Nat := none

/-- A node of the built tree: `DOMElementNode` or `DOMTextNode`. -/
inductive DOMNode where
  | element : DOMElementNodeData DOMNode → DOMNode
  | text : DOMTextNode → DOMNode

/-- `DOMElementNode` of `views.py`. -/
abbrev DOMElementNode := DOMElementNodeData DOMNode

/-- `DOMNode.is_element`. -/
def DOMNode.is_element : DOMNode → Bool
  | .element _ => true
  | .text _ => false

/-- Set the child's parent back-pointer (`node.parent = self`), observable
only through the parent's `node_id`. -/
def setParentRef (n : DOMNode) (pid : Nat) : DOMNode :=
  match n with
  | .element e => .element { e with parent_id := some pid }
  | .text t => .text t

/-- `DOMElementNode.append_child`: set the parent pointer, append to `children`. -/
def DOMElementNodeData.append_child (e : DOMElementNode) (n : DOMNode) : DOMElementNode :=
  { e with children := e.children ++ [setParentRef n e.node_id] }

/-! ## `utils/visible.py` -/

/-- `is_visible_element` of `utils/visible.py`.  The argument is an
`Option DOMNode` because the Python function first rejects `None` and
non-`DOMElementNode` inputs. -/
def is_visible_element (node : Option DOMNode) : Bool :=
  match node with
  | none => false
  | some (.text _) => false
  | some (.element e) =>
    let visibility := pyDictGetD e.computed_styles "visibility" ""
    let display := pyDictGetD e.computed_styles "display" ""
    bif display == "none" || visibility == "hidden" then false
    else
      e.offsetRects.any (fun r => decide (0 < r.width) && decide (0 < r.height))

/-! ## `utils/interactive.py` -/

/-- `INTERACTIVE_CURSORS` (`CursorType` enum values). -/
def INTERACTIVE_CURSORS : List String :=
  ["pointer", "move", "text", "grab", "grabbing", "cell", "copy", "alias",
   "all-scroll", "col-resize", "context-menu", "crosshair", "e-resize",
   "ew-resize", "help", "n-resize", "ne-resize", "nesw-resize", "ns-resize",
   "nw-resize", "nwse-resize", "row-resize", "s-resize", "se-resize",
   "sw-resize", "vertical-text", "w-resize", "zoom-in", "zoom-out"]

/-- `NON_INTERACTIVE_CURSORS` (`NonInteractiveCursor` enum values). -/
def NON_INTERACTIVE_CURSORS : List String :=
  ["not-allowed", "no-drop", "wait", "progress", "initial", "inherit"]

/-- `INTERACTIVE_TAGS` (`InteractiveTag` enum values). -/
def INTERACTIVE_TAGS : List String :=
  ["a", "button", "input", "select", "textarea", "details", "summary",
   "label", "option", "optgroup", "fieldset", "legend"]

/-- `INTERACTIVE_ROLES` (`InteractiveRole` enum values). -/
def INTERACTIVE_ROLES : List String :=
  ["button", "link", "menuitem", "menuitemradio", "menuitemcheckbox",
   "radio", "checkbox", "tab", "switch", "slider", "spinbutton", "combobox",
   "searchbox", "textbox", "listbox", "option", "scrollbar", "treeitem",
   "gridcell", "columnheader", "rowheader"]

/-- `DISABLE_ATTRIBUTES`. -/
def DISABLE_ATTRIBUTES : List String := ["disabled", "readonly"]

/-- `MOUSE_EVENT_ATTRIBUTES`. -/
def MOUSE_EVENT_ATTRIBUTES : List String :=
  ["onclick", "onmousedown", "onmouseup", "ondblclick"]

/-- `INTERACTIVE_CLASS_INDICATORS`. -/
def INTERACTIVE_CLASS_INDICATORS : List String := ["button", "dropdown-toggle"]

/-- `INTERACTIVE_DATA_ATTRIBUTES`. -/
def INTERACTIVE_DATA_ATTRIBUTES : List String :=
  ["data-index", "data-toggle", "data-action", "data-onclick", "data-click"]

/-- `SEMANTIC_INTERACTIVE_ATTRIBUTES`. -/
def SEMANTIC_INTERACTIVE_ATTRIBUTES : List String :=
  ["aria-label", "aria-labelledby", "aria-describedby"]

/-- `EMPTY_HREF_VALUES`. -/
def EMPTY_HREF_VALUES : List String := ["", "#", "javascript:void(0)", "javascript:;"]

/-- `_has_interactive_cursor`: never for the root (`html`) element, else the
computed cursor must be in the interactive-cursor set. -/
def _has_interactive_cursor (node : DOMElementNode) : Bool :=
  bif node.tag == "html" then false
  else INTERACTIVE_CURSORS.contains (pyDictGetD node.computed_styles "cursor" "")

/-- `_is_explicitly_disabled`: a disable attribute present with value `""` or `"true"`. -/
def _is_explicitly_disabled (node : DOMElementNode) : Bool :=
  DISABLE_ATTRIBUTES.any (fun a =>
    match pyDictGet node.attributes a with
    | some v => v == "true" || v == ""
    | none => false)

/-- `_has_interactive_classes_or_data`. -/
def _has_interactive_classes_or_data (node : DOMElementNode) : Bool :=
  let class_attr := pyDictGetD node.attributes "class" ""
  bif INTERACTIVE_CLASS_INDICATORS.any (fun cls => strContains class_attr cls) then true
  else bif INTERACTIVE_DATA_ATTRIBUTES.any (fun a => pyDictContains node.attributes a) then true
  else bif pyDictGet node.attributes "data-toggle" == some "dropdown" then true
  else bif pyDictGet node.attributes "aria-haspopup" == some "true" then true
  else node.attributes.any (fun p =>
    p.1.startsWith "data-" &&
      ["click", "action", "toggle", "trigger", "handler"].any
        (fun kw => strContains (pyLower p.1) kw))

/-- `_has_mouse_event_handlers`. -/
def _has_mouse_event_handlers (node : DOMElementNode) : Bool :=
  MOUSE_EVENT_ATTRIBUTES.any (fun a => pyDictContains node.attributes a)

/-- `_has_valid_tabindex`: `tabindex` parses as an integer `≥ 0`
(`String.toInt?` stands for Python `int(...)`; a parse failure is the caught
`ValueError`). -/
def _has_valid_tabindex (node : DOMElementNode) : Bool :=
  match pyDictGet node.attributes "tabindex" with
  | some s =>
    match s.toInt? with
    | some i => decide (0 ≤ i)
    | none => false
  | none => false

/-- `_is_valid_link`: an anchor with an `href` that is truthy and not in
`EMPTY_HREF_VALUES`. -/
def _is_valid_link (node : DOMElementNode) : Bool :=
  bif node.tag != "a" then false
  else
    let href := pyDictGetD node.attributes "href" ""
    href != "" && !(EMPTY_HREF_VALUES.contains href)

/-- `_has_pointer_events_disabled`. -/
def _has_pointer_events_disabled (node : DOMElementNode) : Bool :=
  pyDictGet node.computed_styles "pointer-events" == some "none"

/-- `_has_semantic_interactive_attributes`. -/
def _has_semantic_interactive_attributes (node : DOMElementNode) : Bool :=
  SEMANTIC_INTERACTIVE_ATTRIBUTES.any (fun a => pyDictContains node.attributes a)

/-- `_is_content_editable_enhanced`. -/
def _is_content_editable_enhanced (node : DOMElementNode) : Bool :=
  bif pyDictGetD node.attributes "contenteditable" "" == "true" then
    pyDictGetD node.computed_styles "user-select" "" != "none"
  else false

/-- `is_interactive_element` of `utils/interactive.py`: the ordered OR-chain
with its two hard reject gates, as in the source. -/
def is_interactive_element (node : Option DOMNode) : Bool :=
  match node with
  | none => false
  | some (.text _) => false
  | some (.element e) =>
    bif _has_pointer_events_disabled e then false
    else bif _has_interactive_cursor e then true
    else bif _is_valid_link e then true
    else bif _has_valid_tabindex e then true
    else bif INTERACTIVE_TAGS.contains e.tag then
      (bif NON_INTERACTIVE_CURSORS.contains (pyDictGetD e.computed_styles "cursor" "") then
        false
      else bif _is_explicitly_disabled e then false
      else true)
    else bif INTERACTIVE_ROLES.contains (pyDictGetD e.attributes "role" "")
        || INTERACTIVE_ROLES.contains (pyDictGetD e.attributes "aria-role" "") then true
    else bif _is_content_editable_enhanced e then true
    else bif _has_interactive_classes_or_data e then true
    else bif _has_mouse_event_handlers e then true
    else bif _has_semantic_interactive_attributes e then true
    else false

/-! ## Claims C3, C4, C5 -/

/-- Claim C3: `is_visible_element` returns `false` for a non-element input;
`false` whenever computed `display == "none"` or `visibility == "hidden"`,
regardless of any rectangle; and otherwise `true` exactly when some derived
offset rectangle (set from the layout bounds by `_extract_layout_data`) has
positive width and height. -/
theorem is_visible_element_iff (node : Option DOMNode) :
    is_visible_element node = true ↔
      ∃ e : DOMElementNode, node = some (DOMNode.element e) ∧
        ¬(pyDictGetD e.computed_styles "display" "" = "none" ∨
          pyDictGetD e.computed_styles "visibility" "" = "hidden") ∧
        ∃ r ∈ e.offsetRects, 0 < r.width ∧ 0 < r.height := by
  cases node with
  | none => simp [is_visible_element]
  | some n =>
    cases n with
    | text t => simp [is_visible_element]
    | element e =>
      simp only [is_visible_element]
      constructor
      · intro h
        by_cases hc : (pyDictGetD e.computed_styles "display" "" == "none" ||
            pyDictGetD e.computed_styles "visibility" "" == "hidden") = true
        · rw [hc] at h
          simp at h
        · have hc2 : (pyDictGetD e.computed_styles "display" "" == "none" ||
              pyDictGetD e.computed_styles "visibility" "" == "hidden") = false := by
            revert hc
            cases (pyDictGetD e.computed_styles "display" "" == "none" ||
              pyDictGetD e.computed_styles "visibility" "" == "hidden") <;> simp
          rw [hc2] at h
          simp only [Bool.cond_false, List.any_eq_true, Bool.and_eq_true,
            decide_eq_true_eq] at h
          obtain ⟨r, hr, h1, h2⟩ := h
          refine ⟨e, rfl, ?_, r, hr, h1, h2⟩
          intro hor
          rw [show (pyDictGetD e.computed_styles "display" "" == "none" ||
              pyDictGetD e.computed_styles "visibility" "" == "hidden") = true by
            rcases hor with h3 | h3 <;> simp [h3]] at hc2
          exact absurd hc2 (by simp)
      · rintro ⟨e2, he2, hnd, r, hr, h1, h2⟩
        injection he2 with he3
        injection he3 with he4
        subst he4
        have hb1 : (pyDictGetD e.computed_styles "display" "" == "none") = false :=
          beq_eq_false_iff_ne.mpr (fun hh => hnd (Or.inl hh))
        have hb2 : (pyDictGetD e.computed_styles "visibility" "" == "hidden") = false :=
          beq_eq_false_iff_ne.mpr (fun hh => hnd (Or.inr hh))
        simp only [hb1, hb2, Bool.or_self, Bool.cond_false, List.any_eq_true,
          Bool.and_eq_true, decide_eq_true_eq]
        exact ⟨r, hr, h1, h2⟩

/-- Claim C4: for an element whose computed cursor is `"pointer"`, whose
`pointer-events` is not `"none"`, and which carries no other interactivity
marker (every later rule of the chain declines it), `is_interactive_element`
is `true` exactly when the element is not the document's root element — the
code identifies the root element by its tag `html`. -/
theorem is_interactive_pointer_cursor (e : DOMElementNode)
    (hcur : pyDictGetD e.computed_styles "cursor" "" = "pointer")
    (hpe : pyDictGet e.computed_styles "pointer-events" ≠ some "none")
    (hlink : _is_valid_link e = false)
    (htab : _has_valid_tabindex e = false)
    (htag : INTERACTIVE_TAGS.contains e.tag = false)
    (hrole : INTERACTIVE_ROLES.contains (pyDictGetD e.attributes "role" "") = false)
    (hrole2 : INTERACTIVE_ROLES.contains (pyDictGetD e.attributes "aria-role" "") = false)
    (hce : _is_content_editable_enhanced e = false)
    (hcd : _has_interactive_classes_or_data e = false)
    (hme : _has_mouse_event_handlers e = false)
    (hsem : _has_semantic_interactive_attributes e = false) :
    is_interactive_element (some (DOMNode.element e)) = !(e.tag == "html") := by
  have hpe2 : _has_pointer_events_disabled e = false := by
    simp only [_has_pointer_events_disabled]
    exact beq_eq_false_iff_ne.mpr hpe
  by_cases hhtml : e.tag = "html"
  · have htagbeq : (e.tag == "html") = true := by simp [hhtml]
    have hic : _has_interactive_cursor e = false := by
      simp only [_has_interactive_cursor, htagbeq, Bool.cond_true]
    simp only [is_interactive_element, hpe2, hic, hlink, htab, htag, hrole, hrole2,
      hce, hcd, hme, hsem, Bool.cond_false, Bool.or_self, htagbeq, Bool.not_true]
  · have hic : _has_interactive_cursor e = true := by
      simp only [_has_interactive_cursor, hcur, beq_eq_false_iff_ne.mpr hhtml, Bool.cond_false]
      decide
    simp only [is_interactive_element, hpe2, hic, Bool.cond_false, Bool.cond_true,
      beq_eq_false_iff_ne.mpr hhtml, Bool.not_false]

/-- Concrete instance for `is_interactive_pointer_cursor`: a plain `div` with
computed cursor `pointer` and nothing else is interactive. -/
theorem is_interactive_pointer_cursor_witness :
    is_interactive_element (some (DOMNode.element
      { node_id := 7, backend_node_id := 8, frame_url := "https://x.test/",
        tag := "div", computed_styles := [("cursor", "pointer")] })) = true := by
  have h := is_interactive_pointer_cursor
    { node_id := 7, backend_node_id := 8, frame_url := "https://x.test/",
      tag := "div", computed_styles := [("cursor", "pointer")] }
    (by decide) (by decide) (by decide) (by decide) (by decide) (by decide)
    (by decide) (by decide) (by decide) (by decide) (by decide)
  simpa using h

/-- Claim C5: an anchor whose `href` is `""`, `"#"`, `"javascript:void(0)"` or
`"javascript:;"` is not accepted by the valid-link rule; and if no other rule
of the chain accepts it (cursor rule and tabindex rule decline, and the
interactive-tag rule rejects because the cursor is a non-interactive cursor or
the element is explicitly disabled), `is_interactive_element` is `false`. -/
theorem anchor_empty_href_not_interactive (e : DOMElementNode)
    (htag : e.tag = "a")
    (hhref : EMPTY_HREF_VALUES.contains (pyDictGetD e.attributes "href" "") = true) :
    _is_valid_link e = false ∧
      (_has_interactive_cursor e = false → _has_valid_tabindex e = false →
        (NON_INTERACTIVE_CURSORS.contains (pyDictGetD e.computed_styles "cursor" "") = true ∨
          _is_explicitly_disabled e = true) →
        is_interactive_element (some (DOMNode.element e)) = false) := by
  have hlink : _is_valid_link e = false := by
    simp only [_is_valid_link, htag, hhref]
    simp
  refine ⟨hlink, fun hic htab hr5 => ?_⟩
  have htag2 : INTERACTIVE_TAGS.contains e.tag = true := by
    rw [htag]; decide
  by_cases hpe : _has_pointer_events_disabled e = true
  · simp only [is_interactive_element, hpe, Bool.cond_true]
  · replace hpe : _has_pointer_events_disabled e = false := by
      revert hpe; cases _has_pointer_events_disabled e <;> simp
    rcases hr5 with hr5 | hr5
    · simp only [is_interactive_element, hpe, hic, hlink, htab, htag2, hr5,
        Bool.cond_false, Bool.cond_true]
    · by_cases hcur : NON_INTERACTIVE_CURSORS.contains
          (pyDictGetD e.computed_styles "cursor" "") = true
      · simp only [is_interactive_element, hpe, hic, hlink, htab, htag2, hcur,
          Bool.cond_false, Bool.cond_true]
      · replace hcur : NON_INTERACTIVE_CURSORS.contains
            (pyDictGetD e.computed_styles "cursor" "") = false := by
          revert hcur
          cases NON_INTERACTIVE_CURSORS.contains (pyDictGetD e.computed_styles "cursor" "") <;>
            simp
        simp only [is_interactive_element, hpe, hic, hlink, htab, htag2, hcur, hr5,
          Bool.cond_false, Bool.cond_true]

/-- Concrete instance for `anchor_empty_href_not_interactive`: a disabled
anchor with `href="#"` is rejected by every rule. -/
theorem anchor_empty_href_not_interactive_witness :
    _is_valid_link
        { node_id := 3, backend_node_id := 4, frame_url := "https://x.test/",
          tag := "a", attributes := [("href", "#"), ("disabled", "")] } = false ∧
      is_interactive_element (some (DOMNode.element
        { node_id := 3, backend_node_id := 4, frame_url := "https://x.test/",
          tag := "a", attributes := [("href", "#"), ("disabled", "")] })) = false := by
  have h := anchor_empty_href_not_interactive
    { node_id := 3, backend_node_id := 4, frame_url := "https://x.test/",
      tag := "a", attributes := [("href", "#"), ("disabled", "")] }
    rfl (by decide)
  exact ⟨h.1, h.2 (by decide) (by decide) (Or.inr (by decide))⟩

/-! ## `utils/enrichment.py` -/

/-- `DOMEnricher.USEFUL_COMPUTED_STYLES`: the fixed ordered list of style
property names requested from `DOMSnapshot.captureSnapshot`. -/
def USEFUL_COMPUTED_STYLES : List String :=
  ["display", "visibility", "opacity", "position", "z-index", "pointer-events",
   "cursor", "overflow", "overflow-x", "overflow-y", "width", "height", "top",
   "left", "right", "bottom", "transform", "clip", "clip-path", "user-select",
   "background-color", "color", "border", "margin", "padding"]

/-- The loop of `_parse_style_array`: builds `styles_dict`, pairing position
`i` of the raw style vector with position `i` of `USEFUL_COMPUTED_STYLES` and
looking the value up in the interned string table (both bounds checked). -/
def buildStylesDict (strings : List String) : List Nat → Nat → PyDict → PyDict
  | [], _, acc => acc
  | value_idx :: rest, i, acc =>
    let acc :=
      match USEFUL_COMPUTED_STYLES[i]?, strings[value_idx]? with
      | some style_name, some style_value => pyDictInsert acc style_name style_value
      | _, _ => acc
    buildStylesDict strings rest (i + 1) acc

/-- `_parse_style_array` of `utils/enrichment.py`. -/
def _parse_style_array (element : DOMElementNode) (style_array : List Nat)
    (strings : List String) : DOMElementNode :=
  let styles_dict := buildStylesDict strings style_array 0 []
  bif styles_dict.isEmpty then element
  else { element with computed_styles := pyDictUpdate element.computed_styles styles_dict }

/-- `_extract_layout_data` of `utils/enrichment.py`: decode the 4-value bounds
into `bounding_box`, mirror width/height into `offsetRects`, copy paint order. -/
def _extract_layout_data (element : DOMElementNode) (layout_idx : Nat)
    (layout_bounds : List (List Rat)) (paint_orders : List Int) : DOMElementNode :=
  let element :=
    match layout_bounds[layout_idx]? with
    | some bounds =>
      match bounds[0]?, bounds[1]?, bounds[2]?, bounds[3]? with
      | some bx, some bq, some bw, some bh =>
        { element with bounding_box := some ⟨bx, bq, bw, bh⟩,
                       offsetRects := [⟨bw, bh⟩] }
      | _, _, _, _ => element
    | none => element
  match paint_orders[layout_idx]? with
  | some po => { element with paint_order := some po }
  | none => element

/-! Association-list lemmas used for the positional-decoding claim. -/

/-- Keys of a `PyDict`. -/
def pyDictKeys (d : PyDict) : List String := d.map (fun p => p.1)


theorem pyDictGet_cons (p : String × String) (rest : PyDict) (k : String) :
    pyDictGet (p :: rest) k = if p.1 == k then some p.2 else pyDictGet rest k := by
  by_cases h : (p.1 == k) = true
  · simp [pyDictGet, List.find?, h]
  · have h2 : (p.1 == k) = false := eq_false_of_ne_true h
    simp [pyDictGet, List.find?, h2]

theorem pyDictContains_cons (p : String × String) (rest : PyDict) (k : String) :
    pyDictContains (p :: rest) k = ((p.1 == k) || pyDictContains rest k) := by
  by_cases h : (p.1 == k) = true
  · simp [pyDictContains, pyDictGet_cons, h]
  · have h2 : (p.1 == k) = false := eq_false_of_ne_true h
    simp [pyDictContains, pyDictGet_cons, h2]

theorem pyDictGet_map_overwrite (k v : String) :
    ∀ d : PyDict, pyDictContains d k = true →
      pyDictGet (d.map (fun p => if p.1 == k then (k, v) else p)) k = some v := by
  intro d
  induction d with
  | nil => intro h; simp [pyDictContains, pyDictGet] at h
  | cons hd tl ih =>
    intro h
    rw [pyDictContains_cons] at h
    by_cases hk : (hd.1 == k) = true
    · simp only [List.map_cons, hk, if_true]
      rw [pyDictGet_cons]
      simp
    · have hk2 : (hd.1 == k) = false := eq_false_of_ne_true hk
      rw [hk2, Bool.false_or] at h
      simp only [List.map_cons, hk2, Bool.false_eq_true, if_false]
      rw [pyDictGet_cons, if_neg (by simp [hk2])]
      exact ih h

theorem pyDictGet_map_overwrite_ne (k v k2 : String) (hne : k2 ≠ k) :
    ∀ d : PyDict,
      pyDictGet (d.map (fun p => if p.1 == k then (k, v) else p)) k2 = pyDictGet d k2 := by
  intro d
  induction d with
  | nil => simp [pyDictGet]
  | cons hd tl ih =>
    by_cases hk : (hd.1 == k) = true
    · simp only [List.map_cons, hk, if_true]
      rw [pyDictGet_cons, pyDictGet_cons]
      have hda : hd.1 = k := by simpa using hk
      have h1 : (k == k2) = false := beq_eq_false_iff_ne.mpr (fun hh => hne hh.symm)
      have h2 : (hd.1 == k2) = false := by
        rw [hda]; exact h1
      simp only [h1, h2, Bool.false_eq_true, if_false]
      exact ih
    · have hk2 : (hd.1 == k) = false := eq_false_of_ne_true hk
      simp only [List.map_cons, hk2, Bool.false_eq_true, if_false]
      rw [pyDictGet_cons, pyDictGet_cons]
      by_cases hh : (hd.1 == k2) = true
      · simp [hh]
      · have hh2 : (hd.1 == k2) = false := eq_false_of_ne_true hh
        simp only [hh2, Bool.false_eq_true, if_false]
        exact ih

theorem pyDictGet_append_single (d : PyDict) (k v : String) :
    pyDictGet (d ++ [(k, v)]) k = ((pyDictGet d k).getD v |> some) := by
  induction d with
  | nil => simp [pyDictGet_cons, pyDictGet]
  | cons hd tl ih =>
    rw [List.cons_append, pyDictGet_cons, pyDictGet_cons]
    by_cases hh : (hd.1 == k) = true
    · simp [hh]
    · have hh2 : (hd.1 == k) = false := eq_false_of_ne_true hh
      simp only [hh2, Bool.false_eq_true, if_false]
      exact ih

theorem pyDictGet_append_single_ne (d : PyDict) (k v k2 : String) (hne : k2 ≠ k) :
    pyDictGet (d ++ [(k, v)]) k2 = pyDictGet d k2 := by
  induction d with
  | nil =>
    simp [pyDictGet_cons, pyDictGet, beq_eq_false_iff_ne.mpr (fun hh => hne hh.symm)]
  | cons hd tl ih =>
    rw [List.cons_append, pyDictGet_cons, pyDictGet_cons]
    by_cases hh : (hd.1 == k2) = true
    · simp [hh]
    · have hh2 : (hd.1 == k2) = false := eq_false_of_ne_true hh
      simp only [hh2, Bool.false_eq_true, if_false]
      exact ih

theorem pyDictGet_insert_self (d : PyDict) (k v : String) :
    pyDictGet (pyDictInsert d k v) k = some v := by
  unfold pyDictInsert
  by_cases h : pyDictContains d k = true
  · rw [if_pos h]
    exact pyDictGet_map_overwrite k v d h
  · have h2 : pyDictContains d k = false := eq_false_of_ne_true h
    rw [if_neg (by simp [h2])]
    rw [pyDictGet_append_single]
    have : pyDictGet d k = none := by
      have := congrArg Option.isSome (rfl : pyDictGet d k = pyDictGet d k)
      revert h2
      unfold pyDictContains
      cases pyDictGet d k <;> simp
    rw [this]
    rfl

theorem pyDictGet_insert_ne (d : PyDict) (k v k2 : String) (hne : k2 ≠ k) :
    pyDictGet (pyDictInsert d k v) k2 = pyDictGet d k2 := by
  unfold pyDictInsert
  by_cases h : pyDictContains d k = true
  · rw [if_pos h]
    exact pyDictGet_map_overwrite_ne k v k2 hne d
  · have h2 : pyDictContains d k = false := eq_false_of_ne_true h
    rw [if_neg (by simp [h2])]
    exact pyDictGet_append_single_ne d k v k2 hne

theorem overwrite_fst (k v : String) (p : String × String) :
    (if p.1 == k then (k, v) else p).1 = p.1 := by
  by_cases h : (p.1 == k) = true
  · have hp : p.1 = k := by simpa using h
    simp [h, hp]
  · have h2 : (p.1 == k) = false := eq_false_of_ne_true h
    simp [h2]

theorem pyDictKeys_map_overwrite (k v : String) (d : PyDict) :
    pyDictKeys (d.map (fun p => if p.1 == k then (k, v) else p)) = pyDictKeys d := by
  unfold pyDictKeys
  rw [List.map_map]
  exact List.map_congr_left (fun p _ => overwrite_fst k v p)

theorem not_mem_keys_of_not_contains (d : PyDict) (k : String)
    (h : pyDictContains d k = false) : k ∉ pyDictKeys d := by
  intro hmem
  induction d with
  | nil => simp [pyDictKeys] at hmem
  | cons hd tl ih =>
    rw [pyDictContains_cons] at h
    simp only [pyDictKeys, List.map_cons, List.mem_cons] at hmem
    rcases hmem with hmem | hmem
    · rw [show (hd.1 == k) = true by simp [hmem]] at h
      simp at h
    · apply ih
      · rcases Bool.or_eq_false_iff.mp h with ⟨_, h2⟩
        exact h2
      · simpa [pyDictKeys] using hmem

theorem pyDictKeys_insert_nodup (d : PyDict) (k v : String)
    (h : (pyDictKeys d).Nodup) : (pyDictKeys (pyDictInsert d k v)).Nodup := by
  unfold pyDictInsert
  by_cases hc : pyDictContains d k = true
  · rw [if_pos hc, pyDictKeys_map_overwrite]
    exact h
  · have hc2 : pyDictContains d k = false := eq_false_of_ne_true hc
    rw [if_neg (by simp [hc2])]
    have hkeys : pyDictKeys (d ++ [(k, v)]) = pyDictKeys d ++ [k] := by
      simp [pyDictKeys]
    rw [hkeys, List.nodup_append]
    refine ⟨h, by simp, ?_⟩
    intro a ha hb
    rw [List.mem_singleton] at hb
    subst hb
    exact not_mem_keys_of_not_contains d a hc2 ha

theorem pyDictUpdate_get_of_not_mem (base : PyDict) (u : PyDict) (k : String)
    (h : ∀ p ∈ u, p.1 ≠ k) :
    pyDictGet (pyDictUpdate base u) k = pyDictGet base k := by
  induction u generalizing base with
  | nil => rfl
  | cons hd tl ih =>
    have h1 : hd.1 ≠ k := h hd (by simp)
    have h2 : ∀ p ∈ tl, p.1 ≠ k := fun p hp => h p (by simp [hp])
    show pyDictGet (pyDictUpdate (pyDictInsert base hd.1 hd.2) tl) k = pyDictGet base k
    rw [ih (pyDictInsert base hd.1 hd.2) h2]
    exact pyDictGet_insert_ne base hd.1 hd.2 k (fun hh => h1 hh.symm)

theorem pyDictUpdate_get_first (base : PyDict) (u : PyDict) (k v : String)
    (hget : pyDictGet u k = some v) (hnd : (pyDictKeys u).Nodup) :
    pyDictGet (pyDictUpdate base u) k = some v := by
  induction u generalizing base with
  | nil => simp [pyDictGet] at hget
  | cons hd tl ih =>
    rw [pyDictGet_cons] at hget
    have hnd0 := hnd
    simp only [pyDictKeys, List.map_cons, List.nodup_cons] at hnd0
    have hnd2 : (pyDictKeys tl).Nodup := hnd0.2
    by_cases hk : (hd.1 == k) = true
    · have hda : hd.1 = k := by simpa using hk
      rw [if_pos hk] at hget
      obtain rfl : hd.2 = v := by injection hget
      show pyDictGet (pyDictUpdate (pyDictInsert base hd.1 hd.2) tl) k = some hd.2
      have hnotin : ∀ p ∈ tl, p.1 ≠ k := by
        intro p hp heq
        have hmem : p.1 ∈ List.map (fun q => q.1) tl := List.mem_map_of_mem _ hp
        rw [heq] at hmem
        apply hnd0.1
        rw [hda]
        exact hmem
      rw [pyDictUpdate_get_of_not_mem (pyDictInsert base hd.1 hd.2) tl k hnotin]
      rw [hda]
      exact pyDictGet_insert_self base k hd.2
    · have hk2 : (hd.1 == k) = false := eq_false_of_ne_true hk
      rw [hk2] at hget
      simp only [Bool.false_eq_true, if_false] at hget
      exact ih (pyDictInsert base hd.1 hd.2) hget hnd2

theorem USEFUL_COMPUTED_STYLES_nodup : USEFUL_COMPUTED_STYLES.Nodup := by decide

theorem nodup_getElem?_unique {l : List String} (hnd : l.Nodup) {i j : Nat} {x : String}
    (hi : l[i]? = some x) (hj : l[j]? = some x) : i = j := by
  obtain ⟨hilen, hival⟩ := List.getElem?_eq_some_iff.mp hi
  obtain ⟨hjlen, hjval⟩ := List.getElem?_eq_some_iff.mp hj
  by_contra hne
  have hpw := List.pairwise_iff_getElem.mp hnd
  rcases Nat.lt_or_ge i j with hlt | hge
  · exact hpw i j hilen hjlen hlt (by rw [hival, hjval])
  · have hlt2 : j < i := Nat.lt_of_le_of_ne hge (fun hh => hne hh.symm)
    exact hpw j i hjlen hilen hlt2 (by rw [hival, hjval])

theorem buildStylesDict_get_preserve (strings : List String) (k : String) :
    ∀ (sa : List Nat) (j : Nat) (acc : PyDict),
      (∀ jj, j ≤ jj → USEFUL_COMPUTED_STYLES[jj]? ≠ some k) →
      pyDictGet (buildStylesDict strings sa j acc) k = pyDictGet acc k := by
  intro sa
  induction sa with
  | nil => intro j acc _; rfl
  | cons v rest ih =>
    intro j acc h
    cases hU : USEFUL_COMPUTED_STYLES[j]? with
    | none =>
      cases hs : strings[v]? with
      | none =>
        simp only [buildStylesDict, hU, hs]
        exact ih (j + 1) acc (fun jj hjj => h jj (Nat.le_trans (Nat.le_succ j) hjj))
      | some sv =>
        simp only [buildStylesDict, hU, hs]
        exact ih (j + 1) acc (fun jj hjj => h jj (Nat.le_trans (Nat.le_succ j) hjj))
    | some nm =>
      cases hs : strings[v]? with
      | none =>
        simp only [buildStylesDict, hU, hs]
        exact ih (j + 1) acc (fun jj hjj => h jj (Nat.le_trans (Nat.le_succ j) hjj))
      | some sv =>
        simp only [buildStylesDict, hU, hs]
        rw [ih (j + 1) _ (fun jj hjj => h jj (Nat.le_trans (Nat.le_succ j) hjj))]
        apply pyDictGet_insert_ne
        intro hkeq
        exact h j (Nat.le_refl j) (by rw [hU, hkeq])

theorem buildStylesDict_get_hit (strings : List String) :
    ∀ (sa : List Nat) (i j : Nat) (acc : PyDict) (vi : Nat) (nm sv : String),
      sa[i]? = some vi → USEFUL_COMPUTED_STYLES[j + i]? = some nm →
      strings[vi]? = some sv →
      pyDictGet (buildStylesDict strings sa j acc) nm = some sv := by
  intro sa
  induction sa with
  | nil => intro i j acc vi nm sv h1 _ _; simp at h1
  | cons v rest ih =>
    intro i j acc vi nm sv h1 h2 h3
    cases i with
    | zero =>
      have hv : v = vi := by simpa using h1
      subst hv
      rw [Nat.add_zero] at h2
      simp only [buildStylesDict, h2, h3]
      rw [buildStylesDict_get_preserve strings nm rest (j + 1) _ ?hfut]
      · exact pyDictGet_insert_self acc nm sv
      case hfut =>
        intro jj hjj hcontra
        have : jj = j := nodup_getElem?_unique USEFUL_COMPUTED_STYLES_nodup hcontra h2
        omega
    | succ i2 =>
      have h1b : rest[i2]? = some vi := by simpa using h1
      have h2b : USEFUL_COMPUTED_STYLES[(j + 1) + i2]? = some nm := by
        rw [show (j + 1) + i2 = j + (i2 + 1) by omega]
        exact h2
      simp only [buildStylesDict]
      exact ih i2 (j + 1) _ vi nm sv h1b h2b h3

theorem buildStylesDict_keys_nodup (strings : List String) :
    ∀ (sa : List Nat) (j : Nat) (acc : PyDict), (pyDictKeys acc).Nodup →
      (pyDictKeys (buildStylesDict strings sa j acc)).Nodup := by
  intro sa
  induction sa with
  | nil => intro j acc h; exact h
  | cons v rest ih =>
    intro j acc h
    cases hU : USEFUL_COMPUTED_STYLES[j]? with
    | none =>
      cases hs : strings[v]? with
      | none => simp only [buildStylesDict, hU, hs]; exact ih (j + 1) acc h
      | some sv => simp only [buildStylesDict, hU, hs]; exact ih (j + 1) acc h
    | some nm =>
      cases hs : strings[v]? with
      | none => simp only [buildStylesDict, hU, hs]; exact ih (j + 1) acc h
      | some sv =>
        simp only [buildStylesDict, hU, hs]
        exact ih (j + 1) _ (pyDictKeys_insert_nodup acc nm sv h)

/-- Claim C2: style-vector decoding is positional — if position `i` of the raw
style vector holds `vi`, `i` is within the fixed requested style-name list
`USEFUL_COMPUTED_STYLES`, and `vi` is a valid string-table index, then after
`_parse_style_array` the element's computed-style map sends the `i`-th
requested style name to `strings[vi]`. -/
theorem parse_style_array_positional (element : DOMElementNode) (style_array : List Nat)
    (strings : List String) (i vi : Nat) (nm sv : String)
    (h1 : style_array[i]? = some vi)
    (h2 : USEFUL_COMPUTED_STYLES[i]? = some nm)
    (h3 : strings[vi]? = some sv) :
    pyDictGet (_parse_style_array element style_array strings).computed_styles nm = some sv := by
  have h2b : USEFUL_COMPUTED_STYLES[0 + i]? = some nm := by simpa using h2
  have hd := buildStylesDict_get_hit strings style_array i 0 [] vi nm sv h1 h2b h3
  have hne : (buildStylesDict strings style_array 0 []).isEmpty = false := by
    cases hE : buildStylesDict strings style_array 0 [] with
    | nil => rw [hE] at hd; simp [pyDictGet] at hd
    | cons a b => rfl
  unfold _parse_style_array
  simp only [hne, Bool.cond_false]
  exact pyDictUpdate_get_first element.computed_styles _ nm sv hd
    (buildStylesDict_keys_nodup strings style_array 0 [] (by simp [pyDictKeys]))

/-- Concrete instance for `parse_style_array_positional`: requested-list entry
0 is `"display"`, the raw vector is `[0]` and string-table entry 0 is
`"block"`, so the decoded computed style `display` is `"block"`. -/
theorem parse_style_array_positional_witness :
    pyDictGet (_parse_style_array
      { node_id := 1, backend_node_id := 2, frame_url := "https://x.test/", tag := "div" }
      [0] ["block"]).computed_styles "display" = some "block" :=
  parse_style_array_positional
    { node_id := 1, backend_node_id := 2, frame_url := "https://x.test/", tag := "div" }
    [0] ["block"] 0 0 "display" "block" rfl rfl rfl

/-! ## `views.py`: tree, queries, serialization -/

mutual
/-- `DOMElementNode.find_all` applied to one node: emit the node itself when
it is an element satisfying the predicate, then recurse into element children. -/
def findAllNode (p : DOMElementNode → Bool) : DOMNode → List DOMElementNode
  | .element e => (bif p e then [e] else []) ++ findAllChildren p e.children
  | .text _ => []
/-- The `for child in self.children` loop of `find_all` (text children are
skipped, element children recursed in order). -/
def findAllChildren (p : DOMElementNode → Bool) : List DOMNode → List DOMElementNode
  | [] => []
  | c :: rest => findAllNode p c ++ findAllChildren p rest
end

/-- `DOMElementNode.find_all` of `views.py`. -/
def DOMElementNode.find_all (e : DOMElementNode) (p : DOMElementNode → Bool) :
    List DOMElementNode :=
  findAllNode p (.element e)

/-- `DOMTree` of `views.py`.  The `root` is typed `DOMNode`: the runtime
accepts whatever node the builder produced (the class annotation says
`DOMElementNode`, but it is not enforced); every query goes through
`root.find_all`, which presupposes an element root. -/
structure DOMTree where
  root : DOMNode

/-- `DOMTree.get_all_elements`. -/
def DOMTree.get_all_elements (t : DOMTree) : List DOMElementNode :=
  findAllNode (fun _ => true) t.root

/-- `DOMTree.get_element_by_id`: `find_all` with the disjunctive id
predicate — it returns a list and never consults the frame key. -/
def DOMTree.get_element_by_id (t : DOMTree) (node_id backend_node_id : Nat) :
    List DOMElementNode :=
  findAllNode (fun e => e.node_id == node_id || e.backend_node_id == backend_node_id) t.root

/-- `DOMTree.get_interactive_elements`. -/
def DOMTree.get_interactive_elements (t : DOMTree) : List DOMElementNode :=
  findAllNode (fun e => pyTruthy e.is_interactive) t.root

theorem mem_findAll (p : DOMElementNode → Bool) (x : DOMElementNode) :
    (∀ n : DOMNode, x ∈ findAllNode p n ↔
      x ∈ findAllNode (fun _ => true) n ∧ p x = true) ∧
    (∀ cs : List DOMNode, x ∈ findAllChildren p cs ↔
      x ∈ findAllChildren (fun _ => true) cs ∧ p x = true) := by
  refine findAllNode.mutual_induct p
    (fun n => x ∈ findAllNode p n ↔ x ∈ findAllNode (fun _ => true) n ∧ p x = true)
    (fun cs => x ∈ findAllChildren p cs ↔ x ∈ findAllChildren (fun _ => true) cs ∧ p x = true)
    ?_ ?_ ?_ ?_
  · intro e ih
    simp only [findAllNode, List.mem_append, Bool.cond_true]
    constructor
    · rintro (hx | hx)
      · by_cases hpe : p e = true
        · rw [hpe] at hx
          simp only [Bool.cond_true, List.mem_singleton] at hx
          subst hx
          exact ⟨Or.inl (by simp), hpe⟩
        · rw [eq_false_of_ne_true hpe] at hx
          simp at hx
      · obtain ⟨h1, h2⟩ := ih.mp hx
        exact ⟨Or.inr h1, h2⟩
    · rintro ⟨hx | hx, hpx⟩
      · simp only [List.mem_singleton] at hx
        subst hx
        rw [hpx]
        simp
      · exact Or.inr (ih.mpr ⟨hx, hpx⟩)
  · intro t
    simp [findAllNode]
  · simp [findAllChildren]
  · intro c rest ih1 ih2
    simp only [findAllChildren, List.mem_append]
    constructor
    · rintro (hx | hx)
      · obtain ⟨h1, h2⟩ := ih1.mp hx
        exact ⟨Or.inl h1, h2⟩
      · obtain ⟨h1, h2⟩ := ih2.mp hx
        exact ⟨Or.inr h1, h2⟩
    · rintro ⟨hx | hx, hpx⟩
      · exact Or.inl (ih1.mpr ⟨hx, hpx⟩)
      · exact Or.inr (ih2.mpr ⟨hx, hpx⟩)

/-- Claim C10: `get_element_by_id(node_id, backend_node_id)` returns exactly
the elements of the tree whose node id equals the given node id OR whose
backend id equals the given backend id; the frame key plays no role, and the
result is a list (possibly empty or with several elements), not an optional
single element. -/
theorem get_element_by_id_spec (root : DOMElementNode) (node_id backend_node_id : Nat)
    (x : DOMElementNode) :
    x ∈ (DOMTree.mk (DOMNode.element root)).get_element_by_id node_id backend_node_id ↔
      x ∈ (DOMTree.mk (DOMNode.element root)).get_all_elements ∧
        (x.node_id = node_id ∨ x.backend_node_id = backend_node_id) := by
  have h := (mem_findAll
    (fun e => e.node_id == node_id || e.backend_node_id == backend_node_id) x).1
    (DOMNode.element root)
  unfold DOMTree.get_element_by_id DOMTree.get_all_elements
  rw [h]
  simp only [Bool.or_eq_true, beq_iff_eq]

/-! ### The JSON and CSV serializations -/

/-- The JSON record built per element by `_to_llm_json` (keys in insertion
order: `i`, `t`, `nid`, `bid`, `fid`, then the conditional `p`, `tx`, `aria`,
`int`). -/
structure JsonNode where
  i : Nat
  t : String
  nid : Nat
  bid : Nat
  fid : String
  p : Option Nat
  tx : Option String
  aria : Option String
  int : Option Bool
deriving DecidableEq

/-- The loop body of `_to_llm_json`. -/
def jsonNodeOfElement (element : DOMElementNode) : JsonNode :=
  let tx := pyStrip element.text_content
  let aria_label := pyDictGetD element.attributes "aria-label" ""
  { i := element.node_id
    t := element.tag
    nid := element.node_id
    bid := element.backend_node_id
    fid := element.frame_url
    p := element.parent_id
    tx := bif tx != "" then some tx else none
    aria := bif aria_label != "" && aria_label != tx then some aria_label else none
    int := bif pyTruthy element.is_interactive then some true else none }

/-- The record list of `_to_llm_json`. -/
def _to_llm_json_nodes (elements : List DOMElementNode) : List JsonNode :=
  elements.map jsonNodeOfElement

/-- String escaping of `json.dumps` (restricted to the escapes that can occur
here). -/
def jsonEscape (s : String) : String :=
  s.foldl (fun acc c =>
    acc ++ (if c = '"' then "\\\"" else if c = '\\' then "\\\\"
            else if c = '\n' then "\\n" else String.singleton c)) ""

/-- A JSON string literal. -/
def jstr (s : String) : String := "\"" ++ jsonEscape s ++ "\""

/-- Compact rendering (`separators=(',', ':')`) of one JSON record. -/
def jsonNodeRender (n : JsonNode) : String :=
  "\x7b" ++ String.intercalate ","
    (["\"i\":" ++ toString n.i, "\"t\":" ++ jstr n.t, "\"nid\":" ++ toString n.nid,
      "\"bid\":" ++ toString n.bid, "\"fid\":" ++ jstr n.fid]
      ++ (match n.p with | some pid => ["\"p\":" ++ toString pid] | none => [])
      ++ (match n.tx with | some tx => ["\"tx\":" ++ jstr tx] | none => [])
      ++ (match n.aria with | some a => ["\"aria\":" ++ jstr a] | none => [])
      ++ (match n.int with | some _ => ["\"int\":true"] | none => [])) ++ "\x7d"

/-- `DOMTree._to_llm_json`. -/
def _to_llm_json (elements : List DOMElementNode) : String :=
  "\x7b\"n\":[" ++ String.intercalate "," ((_to_llm_json_nodes elements).map jsonNodeRender)
    ++ "]\x7d"

/-- The per-element fields computed by the loop of `_to_llm_csv`. -/
structure CsvRow where
  node_id : Nat
  backend_node_id : Nat
  parent_id : String
  tag : String
  text : String
  aria : String
  interactive : String
  frame_url : String
deriving DecidableEq

/-- The loop body of `_to_llm_csv`. -/
def csvRowOfElement (element : DOMElementNode) : CsvRow :=
  let parent_id := match element.parent_id with | some pid => toString pid | none => ""
  let text := pyStrip ((element.text_content.replace "|" " ").replace "\n" " ")
  let aria_label := pyDictGetD element.attributes "aria-label" ""
  let aria := bif aria_label != "" && aria_label != text then aria_label else ""
  let interactive := bif pyTruthy element.is_interactive then "1" else "0"
  { node_id := element.node_id, backend_node_id := element.backend_node_id,
    parent_id := parent_id, tag := element.tag, text := text, aria := aria,
    interactive := interactive, frame_url := element.frame_url }

/-- The record list of `_to_llm_csv` (one line per element, header apart). -/
def _to_llm_csv_rows (elements : List DOMElementNode) : List CsvRow :=
  elements.map csvRowOfElement

/-- The pipe-delimited line for one CSV record. -/
def csvRowRender (r : CsvRow) : String :=
  let node_id := toString r.node_id
  let backend_node_id := toString r.backend_node_id
  let parent_id := r.parent_id
  let tag := r.tag
  let text := r.text
  let aria := r.aria
  let interactive := r.interactive
  let frame_url := r.frame_url
  s!"{node_id}|{backend_node_id}|{parent_id}|{tag}|{text}|{aria}|{interactive}|{frame_url}"

/-- `DOMTree._to_llm_csv`. -/
def _to_llm_csv (elements : List DOMElementNode) : String :=
  String.intercalate "\n"
    ("nid|bnid|pid|t|tx|aria|int|fid" :: (_to_llm_csv_rows elements).map csvRowRender)

/-- Claim C9: for every element list, the JSON and CSV serializations produce
the same number of element records (both one per input element), and the
`k`-th records agree on the identity pair (node id, backend id), the tag, and
the interactive flag (the JSON `int` key is present exactly when the CSV
`int` column is `"1"`).  Both are pure functions of the element list by
construction of the embedding. -/
theorem json_csv_serializations_agree (elements : List DOMElementNode) :
    (_to_llm_json_nodes elements).length = elements.length ∧
    (_to_llm_csv_rows elements).length = elements.length ∧
    ∀ k : Nat,
      ((_to_llm_json_nodes elements)[k]?).map
          (fun j => (j.nid, j.bid, j.t, j.int.isSome)) =
        ((_to_llm_csv_rows elements)[k]?).map
          (fun r => (r.node_id, r.backend_node_id, r.tag, r.interactive == "1")) := by
  refine ⟨by simp [_to_llm_json_nodes], by simp [_to_llm_csv_rows], ?_⟩
  intro k
  simp only [_to_llm_json_nodes, _to_llm_csv_rows, List.getElem?_map]
  cases elements[k]? with
  | none => rfl
  | some e =>
    unfold jsonNodeOfElement csvRowOfElement
    cases hI : pyTruthy e.is_interactive <;> simp [hI]

/-! ## `service.py`: the tree builder -/

/-- Fields of a raw CDP node as returned by `DOM.getDocument` (the parts the
builder reads).  `nodeType` defaults to `0` (`cdp_node.get('nodeType', 0)`),
which is not a valid `NodeType` value. -/
structure CDPNodeData (child : Type) where
  nodeId : Option Nat := none
  backendNodeId : Option Nat := none
  nodeType : Nat := 0
  nodeName : String := ""
  nodeValue : String := ""
  attributes : List String := []
  children : List child := []
  shadowRoots : List child := []
  contentDocument : Option child := none
  documentURL : Option String := none

/-- A raw CDP node. -/
inductive CDPNode where
  | mk : CDPNodeData CDPNode → CDPNode

/-- `cdp_node.get('documentURL')`. -/
def CDPNode.documentURL : CDPNode → Option String
  | .mk d => d.documentURL

/-- `cdp_node.get('nodeType', 0)`. -/
def CDPNode.nodeType : CDPNode → Nat
  | .mk d => d.nodeType

/-- The attribute-decoding loop (`for i in range(0, len(attrs_list), 2)`),
writing each pair into the Python dict. -/
def pairUpAttrsGo : PyDict → List String → PyDict
  | acc, [] => acc
  | acc, [_] => acc
  | acc, k :: v :: rest => pairUpAttrsGo (pyDictInsert acc k v) rest

/-- Decode the flat CDP attribute array into the attribute dict. -/
def pairUpAttrs (attrs_list : List String) : PyDict :=
  pairUpAttrsGo [] attrs_list

/-- The values of the `NodeType` IntEnum; `NodeType(x)` for any other `x`
raises `ValueError`, caught by the traversal's own handler. -/
def validNodeTypes : List Nat := [1, 3, 8, 9, 10, 11]

/-- The per-build mutable state of `DOMService` that the traversal touches:
`processed_frames`, `processed_iframe_nodes`, and the session cache
(represented by its frame-URL keys). -/
structure BuildState where
  processed_frames : List String := []
  processed_iframe_nodes : List Nat := []
  sessions : List String := []
deriving DecidableEq

/-- `DOMService.max_iframe_depth`. -/
def max_iframe_depth : Nat := 3

mutual
/-- `_traverse_node_recursive` of `service.py`, dispatching on the node kind.
`pi` abstracts `_process_iframe_content` at the current iframe depth.  The
`ValueError`s for missing `nodeId` / `backendNodeId` and for an invalid
`NodeType` are caught by this very function's blanket `except` handler, which
logs and returns `None` — modelled directly as `(none, st)`. -/
def _traverse_node_recursive (pi : String → BuildState → Option DOMNode × BuildState) :
    CDPNode → String → BuildState → Option DOMNode × BuildState
  | .mk d, frame_url, st =>
    match d.nodeId with
    | none => (none, st)
    | some node_id =>
      match d.backendNodeId with
      | none => (none, st)
      | some backend_node_id =>
        bif !(validNodeTypes.contains d.nodeType) then (none, st)
        else bif d.nodeType == 9 then
          traverseDocumentChildren pi d.children frame_url st
        else bif d.nodeType == 10 then (none, st)
        else bif d.nodeType == 1 then
          let element : DOMElementNode :=
            { node_id := node_id, backend_node_id := backend_node_id,
              frame_url := frame_url, tag := pyLower d.nodeName,
              attributes := pairUpAttrs d.attributes }
          match traverseElementChildren pi d.children frame_url element st with
          | (element1, st1) =>
            match traverseShadowRoots pi d.shadowRoots frame_url element1 st1 with
            | (element2, st2) =>
              bif element2.tag == "iframe" then
                bif st2.processed_iframe_nodes.contains backend_node_id then
                  (some (.element element2), st2)
                else
                  let st3 := { st2 with
                    processed_iframe_nodes := backend_node_id :: st2.processed_iframe_nodes }
                  traverseIframeContent pi d.contentDocument frame_url element2 st3
              else (some (.element element2), st2)
        else bif d.nodeType == 11 then (none, st)
        else bif d.nodeType == 3 then
          bif d.nodeValue != "" && pyStrip d.nodeValue != "" then
            (some (.text { node_id := node_id, backend_node_id := backend_node_id,
                           frame_url := frame_url, text := pyStrip d.nodeValue }), st)
          else (none, st)
        else (none, st)

/-- The document-kind loop: recurse into children in order, returning the
first non-`None` result. -/
def traverseDocumentChildren (pi : String → BuildState → Option DOMNode × BuildState) :
    List CDPNode → String → BuildState → Option DOMNode × BuildState
  | [], _, st => (none, st)
  | c :: rest, frame_url, st =>
    match _traverse_node_recursive pi c frame_url st with
    | (some x, st1) => (some x, st1)
    | (none, st1) => traverseDocumentChildren pi rest frame_url st1

/-- The element-kind child loop: append each non-`None` child, aggregating a
text child's text into the parent's `text_content` (space-joined). -/
def traverseElementChildren (pi : String → BuildState → Option DOMNode × BuildState) :
    List CDPNode → String → DOMElementNode → BuildState → DOMElementNode × BuildState
  | [], _, element, st => (element, st)
  | c :: rest, frame_url, element, st =>
    match _traverse_node_recursive pi c frame_url st with
    | (some child, st1) =>
      let element2 := element.append_child child
      let element3 :=
        match child with
        | .text t =>
          { element2 with text_content :=
              bif element2.text_content != "" then element2.text_content ++ " " ++ t.text
              else t.text }
        | .element _ => element2
      traverseElementChildren pi rest frame_url element3 st1
    | (none, st1) => traverseElementChildren pi rest frame_url element st1

/-- The shadow-root loop: a `DOCUMENT_FRAGMENT` shadow root has its children
spliced directly into the host element; any other node is traversed normally. -/
def traverseShadowRoots (pi : String → BuildState → Option DOMNode × BuildState) :
    List CDPNode → String → DOMElementNode → BuildState → DOMElementNode × BuildState
  | [], _, element, st => (element, st)
  | sr :: rest, frame_url, element, st =>
    match sr with
    | .mk sd =>
      bif sd.nodeType == 11 then
        match traverseAppendChildren pi sd.children frame_url element st with
        | (element1, st1) => traverseShadowRoots pi rest frame_url element1 st1
      else
        match _traverse_node_recursive pi (.mk sd) frame_url st with
        | (some c, st1) => traverseShadowRoots pi rest frame_url (element.append_child c) st1
        | (none, st1) => traverseShadowRoots pi rest frame_url element st1

/-- The shadow-children loop: append each non-`None` result (no text
aggregation here, matching the source). -/
def traverseAppendChildren (pi : String → BuildState → Option DOMNode × BuildState) :
    List CDPNode → String → DOMElementNode → BuildState → DOMElementNode × BuildState
  | [], _, element, st => (element, st)
  | c :: rest, frame_url, element, st =>
    match _traverse_node_recursive pi c frame_url st with
    | (some child, st1) => traverseAppendChildren pi rest frame_url (element.append_child child) st1
    | (none, st1) => traverseAppendChildren pi rest frame_url element st1

/-- The iframe-content step: with an inline `contentDocument`, recurse into it
directly under the current frame key; otherwise set the iframe element's
`frame_url` to its `src` attribute and delegate to `pi`
(`_process_iframe_content`); append the result when non-`None`. -/
def traverseIframeContent (pi : String → BuildState → Option DOMNode × BuildState)
    (contentDocument : Option CDPNode) (frame_url : String) (element : DOMElementNode)
    (st : BuildState) : Option DOMNode × BuildState :=
  match contentDocument with
  | some content =>
    match _traverse_node_recursive pi content frame_url st with
    | (some child, st1) => (some (.element (element.append_child child)), st1)
    | (none, st1) => (some (.element element), st1)
  | none =>
    let iframe_document_url := pyDictGetD element.attributes "src" ""
    let element2 := { element with frame_url := iframe_document_url }
    match pi iframe_document_url st with
    | (some child, st1) => (some (.element (element2.append_child child)), st1)
    | (none, st1) => (some (.element element2), st1)
end

/-- `_process_iframe_content` (plus `_process_iframe_with_playwright_cdp`),
by recursion on the remaining depth budget `max_iframe_depth - iframe_depth`
(`iframe_depth` is incremented before the fetch and restored in `finally`, so
it equals the iframe nesting depth): budget `0` is the depth guard
(`iframe_depth >= max_iframe_depth` — skip, no error).  `fetchDoc` abstracts
opening a session for the frame URL and fetching its document root; `none` is
any failure (no matching frame, timeout, missing root), caught as a soft
failure that leaves the iframe childless. -/
def _process_iframe_content (fetchDoc : String → Option CDPNode) :
    Nat → String → BuildState → Option DOMNode × BuildState
  | 0, _, st => (none, st)
  | budget + 1, frame_url, st =>
    bif frame_url == "" || st.processed_frames.contains frame_url then (none, st)
    else
      let st2 := { st with processed_frames := frame_url :: st.processed_frames }
      match fetchDoc frame_url with
      | none => (none, st2)
      | some root =>
        let iframe_document_url := root.documentURL.getD frame_url
        let st3 := { st2 with sessions := iframe_document_url :: st2.sessions }
        _traverse_node_recursive (_process_iframe_content fetchDoc budget) root
          iframe_document_url st3

/-- `build_dom_tree` of `service.py` (without the enrichment pass, embedded
separately): fetch the root, traverse it, and either return the tree or a
fatal error.  The two `ValueError`s here are re-raised (wrapped) by the
surrounding handler, so they stay fatal. -/
def build_dom_tree (fetchDoc : String → Option CDPNode) (root_node : Option CDPNode)
    (page_url : String) : Except String DOMTree × BuildState :=
  match root_node with
  | none =>
    (.error "CDP did not provide root node - cannot build DOM tree without CDP data", {})
  | some root =>
    let document_url := root.documentURL.getD page_url
    let r := _traverse_node_recursive (_process_iframe_content fetchDoc max_iframe_depth)
      root document_url {}
    match r.1 with
    | none => (.error "Failed to build DOM tree from CDP data - root element is None", r.2)
    | some root_element => (.ok ⟨root_element⟩, r.2)

/-- `_process_iframe_with_playwright_cdp` as the code stands: `DOMElementNode`
has no `get_session` method (`views.py` defines `get_session_id`; the comment
in `enrichment.py` even says to use `get_session_id`), so the attribute access
`iframe_element.get_session` raises `AttributeError`, caught by the function's
own handler, which returns `None` for every frame. -/
def fetchDocActual : String → Option CDPNode := fun _ => none

/-! ### Helpers for stating builder claims -/

mutual
/-- Whether some raw node anywhere in the structure lacks a primary id or a
backend id. -/
def hasMissingIds : CDPNode → Bool
  | .mk d =>
    d.nodeId.isNone || d.backendNodeId.isNone || hasMissingIdsList d.children
      || hasMissingIdsList d.shadowRoots || hasMissingIdsOpt d.contentDocument
def hasMissingIdsList : List CDPNode → Bool
  | [] => false
  | c :: rest => hasMissingIds c || hasMissingIdsList rest
def hasMissingIdsOpt : Option CDPNode → Bool
  | none => false
  | some c => hasMissingIds c
end

/-- Root of a successful build. -/
def rootOfBuild (r : Except String DOMTree × BuildState) : Option DOMNode :=
  match r.1 with
  | .ok t => some t.root
  | .error _ => none

/-- The `i`-th child of an element node. -/
def childAt : DOMNode → Nat → Option DOMNode
  | .element e, i => e.children[i]?
  | .text _, _ => none

/-- Number of children of an element node. -/
def childCount : Option DOMNode → Option Nat
  | some (.element e) => some e.children.length
  | _ => none

/-- Walk a path of child indices. -/
def pathGet : Option DOMNode → List Nat → Option DOMNode
  | n, [] => n
  | some n, i :: rest => pathGet (childAt n i) rest
  | none, _ => none

/-! ### Claim C1 -/

/-- A raw element child that lacks its primary id (`nodeId` absent). -/
def c1BadChild : CDPNode := .mk { backendNodeId := some 99, nodeType := 1, nodeName := "DIV" }

/-- A raw `html` element whose only child lacks ids. -/
def c1Html : CDPNode :=
  .mk { nodeId := some 2, backendNodeId := some 3, nodeType := 1, nodeName := "HTML",
        children := [c1BadChild] }

/-- A raw document whose tree contains an id-less node. -/
def c1Doc : CDPNode :=
  .mk { nodeId := some 1, backendNodeId := some 1, nodeType := 9, nodeName := "#document",
        children := [c1Html], documentURL := some "https://main.test/" }

/-- Claim C1, counterexample: the input contains a node with no primary id,
yet the build returns a tree (the id-less node was silently dropped — its
`ValueError` is caught by `_traverse_node_recursive`'s own handler), instead
of aborting with a fatal error. -/
theorem build_succeeds_despite_missing_ids :
    hasMissingIds c1Doc = true ∧
    (build_dom_tree fetchDocActual (some c1Doc) "https://main.test/").1 =
      .ok ⟨DOMNode.element
        { node_id := 2, backend_node_id := 3, frame_url := "https://main.test/",
          tag := "html" }⟩ :=
  ⟨rfl, rfl⟩

/-- Claim C1 (amended): a raw node that lacks a primary id or a backend id is
dropped — its traversal returns `None` with the build state unchanged, the
raised `ValueError` being caught by the traversal's own handler; the build as
a whole fails only when the root traversal yields no element, in particular
when the raw root node itself lacks an id. -/
theorem missing_ids_node_dropped (d : CDPNodeData CDPNode)
    (h : d.nodeId = none ∨ d.backendNodeId = none) :
    (∀ (pi : String → BuildState → Option DOMNode × BuildState)
       (frame_url : String) (st : BuildState),
      _traverse_node_recursive pi (.mk d) frame_url st = (none, st)) ∧
    (∀ (fetchDoc : String → Option CDPNode) (page_url : String),
      (build_dom_tree fetchDoc (some (.mk d)) page_url).1 =
        .error "Failed to build DOM tree from CDP data - root element is None") := by
  have h1 : ∀ (pi : String → BuildState → Option DOMNode × BuildState)
      (frame_url : String) (st : BuildState),
      _traverse_node_recursive pi (.mk d) frame_url st = (none, st) := by
    intro pi frame_url st
    rcases h with h | h
    · simp only [_traverse_node_recursive, h]
    · cases hn : d.nodeId with
      | none => simp only [_traverse_node_recursive, hn]
      | some nid => simp only [_traverse_node_recursive, hn, h]
  refine ⟨h1, fun fetchDoc page_url => ?_⟩
  have h2 := h1 (_process_iframe_content fetchDoc max_iframe_depth)
    ((CDPNode.mk d).documentURL.getD page_url) {}
  unfold build_dom_tree
  simp only [h2]

/-- Concrete instance for `missing_ids_node_dropped`: a backend-id-less node
is dropped, and as a root it makes the build fail. -/
theorem missing_ids_node_dropped_witness :
    _traverse_node_recursive (_process_iframe_content fetchDocActual max_iframe_depth)
        (.mk { nodeId := some 4, nodeType := 1, nodeName := "DIV" }) "https://main.test/" {} =
      (none, {}) ∧
    (build_dom_tree fetchDocActual
        (some (.mk { nodeId := some 4, nodeType := 1, nodeName := "DIV" }))
        "https://main.test/").1 =
      .error "Failed to build DOM tree from CDP data - root element is None" := by
  have h := missing_ids_node_dropped
    { nodeId := some 4, nodeType := 1, nodeName := "DIV" } (Or.inr rfl)
  exact ⟨h.1 (_process_iframe_content fetchDocActual max_iframe_depth) "https://main.test/" {},
    h.2 fetchDocActual "https://main.test/"⟩

/-! ### Claim C8 -/

/-- A raw text child of a document node (non-empty text). -/
def c8TextChild : CDPNode :=
  .mk { nodeId := some 5, backendNodeId := some 6, nodeType := 3, nodeValue := "hello" }

/-- A raw `html` element. -/
def c8Html : CDPNode :=
  .mk { nodeId := some 7, backendNodeId := some 8, nodeType := 1, nodeName := "HTML" }

/-- A raw doctype node. -/
def c8Doctype : CDPNode :=
  .mk { nodeId := some 3, backendNodeId := some 4, nodeType := 10, nodeName := "html" }

/-- A raw document whose first child is a non-empty text node. -/
def c8Doc : CDPNode :=
  .mk { nodeId := some 1, backendNodeId := some 2, nodeType := 9, nodeName := "#document",
        children := [c8TextChild, c8Html] }

/-- Claim C8, counterexample: for a document node whose first child is a
non-empty text node, the builder returns that text node — it does not restrict
the recursion to Element-kind children, so the value returned for a
Document-kind node can be a text node. -/
theorem document_with_text_child_returns_text :
    (_traverse_node_recursive (_process_iframe_content fetchDocActual max_iframe_depth)
        c8Doc "https://main.test/" {}).1 =
      some (DOMNode.text
        { node_id := 5, backend_node_id := 6,
          frame_url := "https://main.test/", text := "hello" }) :=
  rfl

theorem traverse_doctype_or_comment_none
    (pi : String → BuildState → Option DOMNode × BuildState) (x : CDPNode)
    (frame_url : String) (st : BuildState)
    (h : x.nodeType = 8 ∨ x.nodeType = 10) :
    _traverse_node_recursive pi x frame_url st = (none, st) := by
  obtain ⟨d⟩ := x
  cases hn : d.nodeId with
  | none => simp only [_traverse_node_recursive, hn]
  | some nid =>
    cases hb : d.backendNodeId with
    | none => simp only [_traverse_node_recursive, hn, hb]
    | some bid =>
      simp only [CDPNode.nodeType] at h
      rcases h with h | h
      · simp only [_traverse_node_recursive, hn, hb, h]
        rfl
      · simp only [_traverse_node_recursive, hn, hb, h]
        rfl

theorem traverseDocumentChildren_skip
    (pi : String → BuildState → Option DOMNode × BuildState) (frame_url : String) :
    ∀ (pre rest : List CDPNode) (st : BuildState),
      (∀ x ∈ pre, x.nodeType = 8 ∨ x.nodeType = 10) →
      traverseDocumentChildren pi (pre ++ rest) frame_url st =
        traverseDocumentChildren pi rest frame_url st := by
  intro pre
  induction pre with
  | nil => intro rest st _; rfl
  | cons x pre2 ih =>
    intro rest st hpre
    have hx := traverse_doctype_or_comment_none pi x frame_url st (hpre x (by simp))
    rw [List.cons_append]
    simp only [traverseDocumentChildren, hx]
    exact ih rest st (fun y hy => hpre y (by simp [hy]))

/-- Claim C8 (amended): for a Document-kind raw node the builder recurses into
the children in source order and returns the first non-null result.  Children
that precede the first candidate and are of Doctype or Comment kind yield null
and are passed over, so when those are the only nodes before the first
Element-kind child, the document's value is that element child's result; but a
preceding non-empty Text-kind child yields a text node, which is returned
instead (see the counterexample). -/
theorem document_children_scanned_in_order
    (pi : String → BuildState → Option DOMNode × BuildState) (d : CDPNodeData CDPNode)
    (pre post : List CDPNode) (c : CDPNode) (frame_url : String) (st : BuildState)
    (nid bid : Nat)
    (hid : d.nodeId = some nid) (hbid : d.backendNodeId = some bid)
    (htype : d.nodeType = 9)
    (hch : d.children = pre ++ c :: post)
    (hpre : ∀ x ∈ pre, x.nodeType = 8 ∨ x.nodeType = 10) :
    _traverse_node_recursive pi (.mk d) frame_url st =
      (match _traverse_node_recursive pi c frame_url st with
       | (some x, st1) => (some x, st1)
       | (none, st1) => traverseDocumentChildren pi post frame_url st1) := by
  simp only [_traverse_node_recursive, hid, hbid, htype, hch]
  show traverseDocumentChildren pi (pre ++ c :: post) frame_url st = _
  rw [traverseDocumentChildren_skip pi frame_url pre (c :: post) st hpre]
  simp only [traverseDocumentChildren]

/-- Concrete instance for `document_children_scanned_in_order`: a document
whose children are a doctype followed by an `html` element yields the `html`
element. -/
theorem document_children_scanned_in_order_witness :
    _traverse_node_recursive (_process_iframe_content fetchDocActual max_iframe_depth)
        (.mk { nodeId := some 1, backendNodeId := some 2, nodeType := 9,
               children := [c8Doctype, c8Html] }) "https://main.test/" {} =
      (some (DOMNode.element
        { node_id := 7, backend_node_id := 8,
          frame_url := "https://main.test/", tag := "html" }), {}) := by
  have h := document_children_scanned_in_order
    (_process_iframe_content fetchDocActual max_iframe_depth)
    { nodeId := some 1, backendNodeId := some 2, nodeType := 9,
      children := [c8Doctype, c8Html] }
    [c8Doctype] [] c8Html "https://main.test/" {} 1 2 rfl rfl rfl rfl
    (by
      intro x hx
      rw [List.mem_singleton] at hx
      subst hx
      exact Or.inr rfl)
  exact h.trans rfl

/-! ### Claim C7 -/

theorem process_iframe_frame_already_visited (fetchDoc : String → Option CDPNode)
    (budget : Nat) (frame_url : String) (st : BuildState)
    (h : st.processed_frames.contains frame_url = true) :
    _process_iframe_content fetchDoc budget frame_url st = (none, st) := by
  cases budget with
  | zero => rfl
  | succ b => simp only [_process_iframe_content, h, Bool.or_true, Bool.cond_true]

/-- Claim C7: a frame key is never traversed twice in one build — when an
iframe's resolved frame key (its `src`) is already in the visited-frame set,
`_process_iframe_content` skips the fetch and returns `None` with the state
unchanged, and the traversal of such an iframe element (no inline content
document, no raw children) yields the iframe element with zero children; no
error is raised (the functions are total and return normally). -/
theorem visited_frame_not_retraversed (fetchDoc : String → Option CDPNode)
    (budget : Nat) (frame_url : String) (st : BuildState)
    (h : st.processed_frames.contains frame_url = true) :
    _process_iframe_content fetchDoc budget frame_url st = (none, st) ∧
    ∀ (parent_url nm : String) (attrs : List String) (nid bid : Nat),
      pyLower nm = "iframe" →
      pyDictGetD (pairUpAttrs attrs) "src" "" = frame_url →
      ∃ (el : DOMElementNode) (st2 : BuildState),
        _traverse_node_recursive (_process_iframe_content fetchDoc budget)
          (.mk { nodeId := some nid, backendNodeId := some bid, nodeType := 1,
                 nodeName := nm, attributes := attrs }) parent_url st =
          (some (DOMNode.element el), st2) ∧ el.children = [] := by
  refine ⟨process_iframe_frame_already_visited fetchDoc budget frame_url st h, ?_⟩
  intro parent_url nm attrs nid bid hnm hsrc
  have hbeq : (pyLower nm == "iframe") = true := by rw [hnm]; rfl
  by_cases hc : st.processed_iframe_nodes.contains bid = true
  · refine ⟨{ node_id := nid, backend_node_id := bid, frame_url := parent_url,
              tag := pyLower nm, attributes := pairUpAttrs attrs }, st, ?_, rfl⟩
    simp only [_traverse_node_recursive, traverseElementChildren, traverseShadowRoots,
      hbeq, hc, Bool.cond_true]
    rfl
  · have hc2 : st.processed_iframe_nodes.contains bid = false := eq_false_of_ne_true hc
    have hskip := process_iframe_frame_already_visited fetchDoc budget frame_url
      { st with processed_iframe_nodes := bid :: st.processed_iframe_nodes } h
    refine ⟨{ node_id := nid, backend_node_id := bid, frame_url := frame_url,
              tag := pyLower nm, attributes := pairUpAttrs attrs },
            { st with processed_iframe_nodes := bid :: st.processed_iframe_nodes }, ?_, rfl⟩
    simp only [_traverse_node_recursive, traverseElementChildren, traverseShadowRoots,
      traverseIframeContent, hbeq, hc2, Bool.cond_true, Bool.cond_false, hsrc, hskip]
    rfl

/-- Concrete instance for `visited_frame_not_retraversed`: an iframe whose
`src` repeats an already-visited frame key ends with zero children. -/
theorem visited_frame_not_retraversed_witness :
    _process_iframe_content fetchDocActual 3 "https://dup.test/"
        { processed_frames := ["https://dup.test/"] } =
      (none, { processed_frames := ["https://dup.test/"] }) ∧
    ∃ (el : DOMElementNode) (st2 : BuildState),
      _traverse_node_recursive (_process_iframe_content fetchDocActual 3)
        (.mk { nodeId := some 7, backendNodeId := some 8, nodeType := 1,
               nodeName := "IFRAME", attributes := ["src", "https://dup.test/"] })
        "https://parent.test/" { processed_frames := ["https://dup.test/"] } =
        (some (DOMNode.element el), st2) ∧ el.children = [] := by
  have h := visited_frame_not_retraversed fetchDocActual 3 "https://dup.test/"
    { processed_frames := ["https://dup.test/"] } (by rfl)
  exact ⟨h.1, h.2 "https://parent.test/" "IFRAME" ["src", "https://dup.test/"] 7 8 rfl rfl⟩

/-! ### Claim C6 -/

/-- A raw iframe element with a `src` attribute and no inline content
document. -/
def c6Iframe (nid : Nat) (src : String) : CDPNode :=
  .mk { nodeId := some nid, backendNodeId := some nid, nodeType := 1, nodeName := "IFRAME",
        attributes := ["src", src] }

/-- A raw document whose `html` element has exactly one child. -/
def c6Document (nid : Nat) (url : String) (body : CDPNode) : CDPNode :=
  .mk { nodeId := some nid, backendNodeId := some nid, nodeType := 9, nodeName := "#document",
        children := [.mk { nodeId := some (nid + 1), backendNodeId := some (nid + 1),
                           nodeType := 1, nodeName := "HTML", children := [body] }],
        documentURL := some url }

/-- Main document of the 4-level nested iframe chain (distinct frame keys). -/
def c6MainDoc : CDPNode := c6Document 10 "https://main.test/" (c6Iframe 12 "https://f1.test/")

def c6Doc1 : CDPNode := c6Document 20 "https://f1.test/" (c6Iframe 22 "https://f2.test/")

def c6Doc2 : CDPNode := c6Document 30 "https://f2.test/" (c6Iframe 32 "https://f3.test/")

def c6Doc3 : CDPNode := c6Document 40 "https://f3.test/" (c6Iframe 42 "https://f4.test/")

def c6Doc4 : CDPNode :=
  c6Document 50 "https://f4.test/"
    (.mk { nodeId := some 52, backendNodeId := some 52, nodeType := 1, nodeName := "DIV" })

/-- A session resolver in which every frame key of the chain is live and
resolvable — the behavior `_process_iframe_with_playwright_cdp` is written to
use. -/
def c6Fetch : String → Option CDPNode := fun url =>
  bif url == "https://f1.test/" then some c6Doc1
  else bif url == "https://f2.test/" then some c6Doc2
  else bif url == "https://f3.test/" then some c6Doc3
  else bif url == "https://f4.test/" then some c6Doc4
  else none

/-- The tree built from the 4-iframe chain by the code as written
(`fetchDocActual`: every `get_session` call raises `AttributeError`, caught). -/
def c6BuiltActual : Option DOMNode :=
  rootOfBuild (build_dom_tree fetchDocActual (some c6MainDoc) "https://main.test/")

/-- The tree built from the 4-iframe chain with a working session resolver
(the intended behavior of the session path). -/
def c6BuiltIntended : Option DOMNode :=
  rootOfBuild (build_dom_tree c6Fetch (some c6MainDoc) "https://main.test/")

/-- Claim C6, evaluated on the code as written: the build completes without
error, but the first iframe of the chain already has zero children — no level
of iframe content is embedded, because `iframe_element.get_session` does not
exist (`views.py` defines `get_session_id`), the `AttributeError` is caught as
a soft failure, and the session path never yields a document. -/
theorem iframe_chain_yields_no_content_as_written :
    c6BuiltActual.isSome = true ∧
    childCount (pathGet c6BuiltActual []) = some 1 ∧
    childCount (pathGet c6BuiltActual [0]) = some 0 :=
  ⟨rfl, rfl, rfl⟩

set_option maxHeartbeats 2000000 in
/-- The intended depth-limit behavior, with a working session resolver: the
build succeeds, the first three iframes receive their content documents, and
the fourth iframe is present with zero children (the depth guard fires). -/
theorem iframe_chain_embeds_three_levels_with_resolver :
    c6BuiltIntended.isSome = true ∧
    childCount (pathGet c6BuiltIntended [0]) = some 1 ∧
    childCount (pathGet c6BuiltIntended [0, 0, 0]) = some 1 ∧
    childCount (pathGet c6BuiltIntended [0, 0, 0, 0, 0]) = some 1 ∧
    childCount (pathGet c6BuiltIntended [0, 0, 0, 0, 0, 0, 0]) = some 0 :=
  ⟨rfl, rfl, rfl, rfl, rfl⟩
